import Mathlib

/-!
Shallow embedding of the Yex trial-execution engine (`src/yex/mod.rs`).

Modelling conventions:
* `Duration` is a count of microseconds (`Duration::from_millis n` is
  `n * 1000`, `Duration::from_micros n` is `n`); `Instant` is an abstract
  time stamp modelled as a natural number and supplied as a parameter
  wherever the source calls `Instant::now()`.
* `futures_timer::Delay::new(dur)` in the source constructs a timer future
  and immediately drops it without awaiting, so it has no observable
  effect on the data; the embedding therefore carries no clock.
* A `todo!()` branch in the source panics; any function that can reach one
  returns an `Option` and yields `none` on that path.
* External crate types (`image::RgbaImage`, `isolang::Language`) and the
  machine type `f32` are opaque to the engine (never constructed or
  inspected by it); they are modelled as inert structures with decidable
  equality.
* Mutation through `&mut self` is modelled by returning the updated value;
  instrumented variants (`Trial.runT`, `demoT`) additionally return the
  list of successive values the `state` field is assigned, in order,
  starting from the initial state.
-/

set_option autoImplicit false

namespace Yex

abbrev Text := String
abbrev Key := Char
abbrev Instant := Nat
abbrev Duration := Nat

/-- `Duration::from_millis` in microseconds. -/
def Duration.from_millis (n : Nat) : Duration := n * 1000

/-- `Duration::from_micros`. -/
def Duration.from_micros (n : Nat) : Duration := n

/-- Stand-in for `f32` payloads: the engine never constructs or inspects a
`Graded` score, so the float is kept as its raw bit pattern. -/
structure F32 where
  bits : Nat
deriving DecidableEq

/-- Stand-in for `image::RgbaImage` (external crate type, inert data). -/
structure RgbaImage where
  width : Nat
  height : Nat
  pixels : List Nat
deriving DecidableEq

/-- Stand-in for `isolang::Language` (external crate type, inert data). -/
structure Language where
  code : String
deriving DecidableEq

def Language.default : Language := ⟨"eng"⟩

namespace trial

/-- `trial::State` from the source. -/
inductive State where
  | Init
  | Prelude
  | Present
  | Feedback
deriving DecidableEq

/-- `trial::Stimulus`: blank, text (duration, size, colour), or image
(duration, pixel buffer, placement box `[usize; 4]`). -/
inductive Stimulus where
  | Blank (dur : Duration)
  | Text (dur : Duration) (size : Int) (color : Int × Int × Int)
  | Image (dur : Duration) (img : RgbaImage) (box : Nat × Nat × Nat × Nat)
deriving DecidableEq

/-- `Stimulus::load`: `pub fn load(&mut self) -> &Self {self}` — it mutates
nothing and returns the stimulus itself. -/
def Stimulus.load (s : Stimulus) : Stimulus := s

/-- `trial::Prelude`. -/
inductive Prelude where
  | Now
  | Blank (dur : Duration)
  | Fix (dur : Duration)
  | Prime (dur : Duration) (stim : Stimulus)
deriving DecidableEq

/-- `trial::Advance`. -/
inductive Advance where
  | Wait (dur : Duration)
  | Keys (keys : List Key)
  | KeysMaxWait (keys : List Key) (dur : Duration)
deriving DecidableEq

/-- `trial::Response`. -/
inductive Response where
  | RT (dur : Duration)
  | RTCorrect (dur : Duration) (correct : Bool)
  | Choice (key : Key)
  | Graded (score : F32)
  | TooLate
deriving DecidableEq

/-- `trial::Feedback` (unused by the engine, kept for completeness). -/
inductive Feedback where
  | Correct
  | Incorrect
  | ThankYou
deriving DecidableEq

/-- `trial::Trial`. -/
structure Trial where
  prelude : Prelude
  stimulus : Stimulus
  advance : Advance
  state : State
deriving DecidableEq

/-- `Default for Trial`. -/
def Trial.default : Trial :=
  { state := State.Init
    prelude := Prelude.Blank (Duration.from_micros 500)
    stimulus := Stimulus.Blank (Duration.from_micros 500)
    advance := Advance.Wait (Duration.from_millis 500) }

/-- `trial::Observation`. -/
structure Observation where
  trial : Trial
  response : Response
deriving DecidableEq

/-- `Observation::new`. -/
def Observation.new (trial : Trial) (response : Response) : Observation :=
  { trial := trial, response := response }

/-- `Trial::prepare`: loads the stimulus in place and returns a clone of
the (unchanged, since `load` is the identity) trial. -/
def Trial.prepare (t : Trial) : Trial :=
  { t with stimulus := t.stimulus.load }

/-- `Trial::run`, instrumented with the successive values taken by
`self.state` (initial value first).  The source sets `state = Prelude`,
matches the trial prelude (`Now` proceeds, `Blank`/`Fix` build and drop a
`Delay`, `Prime` is `todo!()` and panics — modelled as `none`), sets
`state = Present`, builds and drops a 500 ms `Delay` standing in for
response collection, hard-codes `Response::Choice('y')`, and packages a
clone of `self` with that response.  `self.state` is never set to
`Feedback`. -/
def Trial.runT (t : Trial) : List State × Option (Trial × Observation) :=
  let t0 := t.prepare
  let t1 : Trial := { t0 with state := State.Prelude }
  match t1.prelude with
  | Prelude.Prime _ _ => ([t.state, t1.state], none)
  | _ =>
    let t2 : Trial := { t1 with state := State.Present }
    ([t.state, t1.state, t2.state],
     some (t2, Observation.new t2 (Response.Choice 'y')))

/-- `Trial::run`: the observation-producing part of `runT`. -/
def Trial.run (t : Trial) : Option (Trial × Observation) :=
  (t.runT).2

/-- Classifier: is a response one of the timing-only reaction-time
variants (`RT` or `RTCorrect`)? -/
def Response.isRT : Response → Bool
  | Response.RT _ => true
  | Response.RTCorrect _ _ => true
  | _ => false

end trial

namespace block

open trial (Trial Observation)

/-- `block::State`. -/
inductive State where
  | Init
  | Prelude
  | Present (trialNumber : Nat)
  | Relax
deriving DecidableEq

/-- `block::Prelude`. -/
inductive Prelude where
  | Now
  | Blank (dur : Duration)
  | Instruct (dur : Duration) (txt : Text)
  | InstructKeys (keys : List Key) (txt : Text)
deriving DecidableEq

/-- `block::Relax`. -/
inductive Relax where
  | Now
  | Wait (dur : Duration)
  | Keys (keys : List Key)
  | KeysMaxWait (keys : List Key) (dur : Duration)
deriving DecidableEq

/-- `block::Block`. -/
structure Block where
  id : Instant
  trials : List Trial
  random : Bool
  prelude : Prelude
  relax : Relax
  state : State
deriving DecidableEq

/-- `Default for Block` (`Instant::now()` supplied as a parameter). -/
def Block.default (now : Instant) : Block :=
  { id := now
    trials := List.replicate 3 Trial.default
    random := false
    prelude := Prelude.Blank (Duration.from_millis 1000)
    relax := Relax.Wait (Duration.from_millis 2000)
    state := State.Init }

/-- The trial loop of `Block::run`: `for trial in self.trials.clone() {
let obs = trial.clone().run(); out.push(obs); }`.  Each trial is run on a
clone; a panicking trial (`Prime` prelude) panics the whole loop
(`none`). -/
def runTrials : List Trial → Option (List Observation)
  | [] => some []
  | t :: ts =>
    match t.run with
    | none => none
    | some (_, obs) =>
      match runTrials ts with
      | none => none
      | some rest => some (obs :: rest)

/-- The tail of `Block::run` after the prelude match: run the trials,
set `self.state = State::Relax`, then match the relax policy (`Now`
proceeds, `Wait` builds and drops a `Delay`, `Keys` and `KeysMaxWait` are
`todo!()` and panic). -/
def Block.runRest (b1 : Block) : Option (Block × List Observation) :=
  match runTrials b1.trials with
  | none => none
  | some out =>
    let b2 : Block := { b1 with state := State.Relax }
    match b2.relax with
    | Relax.Now => some (b2, out)
    | Relax.Wait _ => some (b2, out)
    | Relax.Keys _ => none
    | Relax.KeysMaxWait _ _ => none

/-- `Block::run`: sets `self.state = State::Prelude`, matches the block
prelude (`Now` proceeds, `Instruct` builds and drops a `Delay`; `Blank`
and `InstructKeys` fall to the `_ => todo!()` arm and panic — modelled as
`none`), then proceeds with `Block.runRest`.  Returns the mutated block
together with the collected observations.  The `random` flag is never
consulted. -/
def Block.run (b : Block) : Option (Block × List Observation) :=
  let b1 : Block := { b with state := State.Prelude }
  match b1.prelude with
  | Prelude.Now => b1.runRest
  | Prelude.Instruct _ _ => b1.runRest
  | Prelude.Blank _ => none
  | Prelude.InstructKeys _ _ => none

end block

namespace session

open block (Block)

/-- `session::Sex`. -/
inductive Sex where
  | Male
  | Female
deriving DecidableEq

/-- `session::Gender`. -/
inductive Gender where
  | Straight (s : Sex)
  | Gay (s : Sex)
  | Bi (s : Sex)
  | Asexual (s : Sex)
deriving DecidableEq

/-- `session::Participant`. -/
structure Participant where
  id : Nat
  age : Int
  gender : Gender
  language : Language
deriving DecidableEq

/-- `Default for Participant`. -/
def Participant.default : Participant :=
  { id := 0, age := 42, gender := Gender.Straight Sex.Male
    language := Language.default }

/-- `session::Experiment`. -/
structure Experiment where
  id : String
  blocks : List Block
  instructions : Text
  random : Bool
deriving DecidableEq

/-- `Default for Experiment` (`Instant::now()` supplied as a parameter). -/
def Experiment.default (now : Instant) : Experiment :=
  { id := "Stroop"
    blocks := List.replicate 2 (Block.default now)
    instructions := "Say the color of the word!"
    random := false }

/-- `session::State`. -/
inductive State where
  | Init
  | Welcome
  | Consent
  | Demographics
  | Blocks (b : Block)
  | Goodbye
deriving DecidableEq

/-- `session::Session`. -/
structure Session where
  id : Instant
  part : Participant
  exp : Experiment
  state : State
deriving DecidableEq

/-- `Session::new` (`Instant::now()` supplied as a parameter). -/
def Session.new (now : Instant) (exp : Experiment) (part : Participant) :
    Session :=
  { id := now, part := part, exp := exp, state := State.Init }

end session

open session (Session)
open block (Block)

/-- The block loop of `demo`: `for block in &mut session.exp.blocks {
block.run(); }` — each stored block is run through a mutable reference,
so its mutated value is written back in place; the returned observations
are discarded.  A panicking block panics the loop (`none`). -/
def runBlocks : List Block → Option (List Block)
  | [] => some []
  | b :: bs =>
    match b.run with
    | none => none
    | some (b', _) =>
      match runBlocks bs with
      | none => none
      | some rest => some (b' :: rest)

/-- `demo`, instrumented with the successive values taken by
`session.state` (initial value first).  The source locks the session,
sets `state = Welcome`, prints, builds and drops a 500 ms `Delay`, runs
every block of the experiment in place, and sets `state = Goodbye`.  The
`Consent`, `Demographics` and `Blocks` states are never assigned. -/
def demoT (s : Session) : List session.State × Option Session :=
  let s1 : Session := { s with state := session.State.Welcome }
  match runBlocks s1.exp.blocks with
  | none => ([s.state, s1.state], none)
  | some blocks' =>
    let s3 : Session :=
      { s1 with
        exp := { s1.exp with blocks := blocks' }
        state := session.State.Goodbye }
    ([s.state, s1.state, s3.state], some s3)

/-- `demo`: the session-producing part of `demoT`. -/
def demo (s : Session) : Option Session :=
  (demoT s).2

/-- Position of a trial state in the documented order
`Init -> Prelude -> Present -> Feedback`. -/
def trialStateIdx : trial.State → Nat
  | trial.State.Init => 0
  | trial.State.Prelude => 1
  | trial.State.Present => 2
  | trial.State.Feedback => 3

/-- Position of a session state in the documented order
`Init -> Welcome -> Consent -> Demographics -> Blocks -> Goodbye`. -/
def sessionStateIdx : session.State → Nat
  | session.State.Init => 0
  | session.State.Welcome => 1
  | session.State.Consent => 2
  | session.State.Demographics => 3
  | session.State.Blocks _ => 4
  | session.State.Goodbye => 5

/-! Concrete inputs used to instantiate the general theorems. -/

open trial (Trial Observation)

/-- A default trial whose advance policy is `KeysMaxWait(['y'], 500ms)`. -/
def kmTrial : Trial :=
  { Trial.default with
    advance := trial.Advance.KeysMaxWait ['y'] (Duration.from_millis 500) }

/-- A default trial whose prelude is `Prime` (an unimplemented branch of
`Trial::run`). -/
def primeTrial : Trial :=
  { Trial.default with
    prelude := trial.Prelude.Prime (Duration.from_micros 500)
      (trial.Stimulus.Blank (Duration.from_micros 500)) }

/-- A block holding one default trial, with `Now` prelude and `Now` relax
(the two implemented policy variants at block level). -/
def exBlock : Block :=
  { id := 0
    trials := [Trial.default]
    random := false
    prelude := block.Prelude.Now
    relax := block.Relax.Now
    state := block.State.Init }

/-- `exBlock` with the keypress-gated instruction prelude (an
unimplemented branch of `Block::run`). -/
def blockIK : Block :=
  { exBlock with prelude := block.Prelude.InstructKeys ['k'] "go" }

/-- `exBlock` with the `Keys` relax policy (unimplemented branch). -/
def blockRelaxKeys : Block :=
  { exBlock with relax := block.Relax.Keys ['k'] }

/-- `exBlock` with the `KeysMaxWait` relax policy (unimplemented
branch). -/
def blockRelaxKMW : Block :=
  { exBlock with
    relax := block.Relax.KeysMaxWait ['k'] (Duration.from_millis 500) }

/-- `exBlock` holding a `Prime`-prelude trial, which panics inside the
trial loop. -/
def blockPrimeTrial : Block :=
  { exBlock with trials := [primeTrial] }

/-- The default trial as it stands at the moment its observation is
packaged: stimulus loaded (a no-op) and state `Present`. -/
def exTrialFinal : Trial :=
  { Trial.default with state := trial.State.Present }

/-- The observation produced by running the default trial. -/
def exObs : Observation :=
  Observation.new exTrialFinal (trial.Response.Choice 'y')

/-- `exBlock` as `Block::run` leaves it: state `Relax`, all else
unchanged. -/
def exBlockFinal : Block :=
  { exBlock with state := block.State.Relax }

/-- A one-block experiment around `exBlock`. -/
def exExp : session.Experiment :=
  { id := "Stroop"
    blocks := [exBlock]
    instructions := "Say the color of the word!"
    random := false }

/-- A session over `exExp` with the default participant. -/
def exSession : Session :=
  session.Session.new 0 exExp session.Participant.default

/-- `exSession` as `demo` leaves it: every stored block run in place
(state `Relax`) and session state `Goodbye`. -/
def exSessionFinal : Session :=
  { exSession with
    exp := { exExp with blocks := [exBlockFinal] }
    state := session.State.Goodbye }

/-! Helper lemmas shared by several claim theorems. -/

/-- If `Block::run` returns, the observations are exactly those of the
trial loop and the mutated block differs from the input only in its
`state` field, now `Relax`. -/
theorem block_run_some (b b' : Block) (out : List trial.Observation)
    (h : b.run = some (b', out)) :
    block.runTrials b.trials = some out ∧
      b' = { b with state := block.State.Relax } := by
  obtain ⟨i, ts, r, p, rx, st⟩ := b
  cases p <;> simp only [block.Block.run, block.Block.runRest] at h <;>
    try exact Option.noConfusion h
  all_goals
    cases hrt : block.runTrials ts <;> rw [hrt] at h <;>
      try exact Option.noConfusion h
  all_goals cases rx <;> simp_all

/-- If the trial loop returns, the observations correspond one-to-one and
in order to the trials run. -/
theorem runTrials_forall2 (ts : List Trial) (out : List trial.Observation)
    (h : block.runTrials ts = some out) :
    List.Forall₂ (fun t o => (Trial.run t).map Prod.snd = some o) ts out := by
  induction ts generalizing out with
  | nil =>
    simp only [block.runTrials, Option.some.injEq] at h
    subst h
    exact List.Forall₂.nil
  | cons t ts ih =>
    cases hr : t.run with
    | none => simp [block.runTrials, hr] at h
    | some p =>
      obtain ⟨t', obs⟩ := p
      cases hrest : block.runTrials ts with
      | none => simp [block.runTrials, hr, hrest] at h
      | some rest =>
        simp only [block.runTrials, hr, hrest, Option.some.injEq] at h
        subst h
        exact List.Forall₂.cons (by rw [Trial.run] at hr ⊢; rw [hr]; rfl)
          (ih rest hrest)

/-- If the block loop of `demo` returns, every stored block has been
replaced in place by its run version: same block, state `Relax`. -/
theorem runBlocks_map (bs bs' : List Block) (h : runBlocks bs = some bs') :
    bs' = bs.map (fun b => { b with state := block.State.Relax }) := by
  induction bs generalizing bs' with
  | nil =>
    simp only [runBlocks, Option.some.injEq] at h
    simp [← h]
  | cons b bs ih =>
    cases hr : b.run with
    | none => simp [runBlocks, hr] at h
    | some p =>
      obtain ⟨b1, out⟩ := p
      cases hrest : runBlocks bs with
      | none => simp [runBlocks, hr, hrest] at h
      | some rest =>
        simp only [runBlocks, hr, hrest, Option.some.injEq] at h
        subst h
        obtain ⟨-, h2⟩ := block_run_some b b1 out hr
        simp [h2, ih rest hrest]

/-- Characterization of a completed `demo` run: the state trace is
`initial, Welcome, Goodbye` and the result is the input session with its
blocks run in place and state `Goodbye`. -/
theorem demoT_some (s s' : Session) (h : (demoT s).2 = some s') :
    (demoT s).1 =
      [s.state, session.State.Welcome, session.State.Goodbye] ∧
    ∃ blocks', runBlocks s.exp.blocks = some blocks' ∧
      s' = { s with
             exp := { s.exp with blocks := blocks' }
             state := session.State.Goodbye } := by
  cases hrb : runBlocks s.exp.blocks with
  | none => simp [demoT, hrb] at h
  | some blocks' =>
    constructor
    · simp [demoT, hrb]
    · refine ⟨blocks', rfl, ?_⟩
      simp only [demoT, hrb, Option.some.injEq] at h
      exact h.symm

/-! Claim theorems. -/

/-- Claim C1 (evidence of the code bug): in a trial whose advance policy
is `KeysMaxWait(['y'], 500ms)`, `Trial::run` ignores the advance policy
entirely — no input channel or deadline exists — and unconditionally
resolves with `Choice('y')` after a hard-coded emulated delay, which is
not the `TooLate` the claim requires when no key arrives by the
deadline. -/
theorem keysMaxWait_race_unimplemented :
    kmTrial.advance =
      trial.Advance.KeysMaxWait ['y'] (Duration.from_millis 500) ∧
    (kmTrial.run).map (fun p => p.2.response) =
      some (trial.Response.Choice 'y') ∧
    trial.Response.Choice 'y' ≠ trial.Response.TooLate := by
  refine ⟨rfl, rfl, ?_⟩
  decide

/-- Claim C2 (evidence of the code bug): the default trial's advance
policy is `Wait(500ms)`, yet `Trial::run` resolves it with the key-choice
response `Choice('y')`, not a timing-only reaction-time response. -/
theorem wait_advance_yields_choice :
    Trial.default.advance = trial.Advance.Wait (Duration.from_millis 500) ∧
    (Trial.default.run).map (fun p => p.2.response) =
      some (trial.Response.Choice 'y') ∧
    (Trial.default.run).map (fun p => (p.2.response).isRT) = some false :=
  ⟨rfl, rfl, rfl⟩

/-- Claim C3: whenever `Block::run` returns, it returns one Observation
per trial (asset load is infallible, so no trial aborts on it), and the
Observations correspond one-to-one, in order, to the trials in the
realized presentation order (which is the stored order: the engine never
shuffles). -/
theorem block_run_observation_count_order (b b' : Block)
    (out : List trial.Observation) (h : b.run = some (b', out)) :
    out.length = b.trials.length ∧
    List.Forall₂ (fun t o => (Trial.run t).map Prod.snd = some o)
      b.trials out := by
  obtain ⟨hrt, -⟩ := block_run_some b b' out h
  have hf := runTrials_forall2 b.trials out hrt
  exact ⟨hf.length_eq.symm, hf⟩

/-- Claim C3 witness: the one-trial block `exBlock` runs to completion
with exactly one Observation, matching its single trial. -/
theorem block_run_observation_count_order_witness :
    ([exObs] : List trial.Observation).length = exBlock.trials.length ∧
    List.Forall₂ (fun t o => (Trial.run t).map Prod.snd = some o)
      exBlock.trials [exObs] :=
  block_run_observation_count_order exBlock exBlockFinal [exObs] rfl

/-- Claim C4 counterexample: running the default trial assigns the state
sequence `Init, Prelude, Present`; the run ends in `Present` and the
terminal state `Feedback` is never entered, contradicting the claim that
every run ends in `Feedback`. -/
theorem trial_run_never_reaches_feedback :
    (Trial.default.runT).1 =
      [trial.State.Init, trial.State.Prelude, trial.State.Present] ∧
    trial.State.Feedback ∉ (Trial.default.runT).1 ∧
    (Trial.default.runT).1.getLast? = some trial.State.Present := by
  refine ⟨rfl, ?_, rfl⟩
  decide

/-- Claim C4 as amended: during one execution of `Trial::run` on a trial
starting in `Init` (with any prelude the engine implements, i.e. not
`Prime`), the state moves one-directionally through
`Init -> Prelude -> Present`, never re-enters an earlier state, and ends
in `Present`; the `Feedback` state is never entered. -/
theorem trial_run_state_trace (t : Trial)
    (h0 : t.state = trial.State.Init)
    (hp : ∀ d st, t.prelude ≠ trial.Prelude.Prime d st) :
    (t.runT).1 =
      [trial.State.Init, trial.State.Prelude, trial.State.Present] ∧
    List.Pairwise (fun a b => trialStateIdx a < trialStateIdx b)
      (t.runT).1 ∧
    trial.State.Feedback ∉ (t.runT).1 := by
  have h1 : (t.runT).1 =
      [trial.State.Init, trial.State.Prelude, trial.State.Present] := by
    obtain ⟨p, stim, adv, st⟩ := t
    cases st
    case Prelude => simp at h0
    case Present => simp at h0
    case Feedback => simp at h0
    case Init =>
      cases p with
      | Prime d s2 => exact absurd rfl (hp d s2)
      | Now => rfl
      | Blank d => rfl
      | Fix d => rfl
  refine ⟨h1, ?_, ?_⟩ <;> rw [h1] <;> decide

/-- Claim C4 witness: the amended claim instantiated at the default
trial. -/
theorem trial_run_state_trace_witness :
    (Trial.default.runT).1 =
      [trial.State.Init, trial.State.Prelude, trial.State.Present] ∧
    List.Pairwise (fun a b => trialStateIdx a < trialStateIdx b)
      (Trial.default.runT).1 ∧
    trial.State.Feedback ∉ (Trial.default.runT).1 :=
  trial_run_state_trace Trial.default rfl
    (by intro d st h; simp [trial.Trial.default] at h)

/-- Claim C5 (evidence of the code bug): the `Blank` and `InstructKeys`
block preludes, the `Keys` and `KeysMaxWait` relax policies, and the
`Prime` trial prelude all reach `todo!()` and panic (modelled as `none`);
in particular the default block — whose prelude is `Blank(1000ms)` —
cannot run at all. -/
theorem unimplemented_variants_abort :
    (Block.default 0).run = none ∧
    blockIK.run = none ∧
    blockRelaxKeys.run = none ∧
    blockRelaxKMW.run = none ∧
    blockPrimeTrial.run = none ∧
    primeTrial.run = none :=
  ⟨rfl, rfl, rfl, rfl, rfl, rfl⟩

/-- Claim C6 counterexample: `demo` runs each stored block through a
mutable reference, so after a full run the Experiment's blocks are not
the ones recorded at Session creation: the stored block's state has moved
from `Init` to `Relax`, and the resulting Experiment differs from the
original. -/
theorem demo_mutates_experiment_blocks :
    (demo exSession).map (fun s => s.exp.blocks.map (fun b => b.state)) =
      some [block.State.Relax] ∧
    exSession.exp.blocks.map (fun b => b.state) = [block.State.Init] ∧
    (demo exSession).map (fun s => s.exp == exSession.exp) = some false :=
  ⟨rfl, rfl, rfl⟩

/-- Claim C6 as amended: after Session creation the Participant record
and the Experiment's id, instructions and randomize flag are never
mutated by a full `demo` run, and each stored Block keeps its id, trials,
flags and policies — but each Block's `state` field is mutated in place
to `Relax` by the run. -/
theorem demo_preserves_participant_and_experiment_core (s s' : Session)
    (h : demo s = some s') :
    s'.part = s.part ∧
    s'.exp.id = s.exp.id ∧
    s'.exp.instructions = s.exp.instructions ∧
    s'.exp.random = s.exp.random ∧
    s'.exp.blocks =
      s.exp.blocks.map (fun b => { b with state := block.State.Relax }) := by
  obtain ⟨-, blocks', hrb, hs'⟩ := demoT_some s s' h
  subst hs'
  exact ⟨rfl, rfl, rfl, rfl, runBlocks_map s.exp.blocks blocks' hrb⟩

/-- Claim C6 witness: the amended claim instantiated at `exSession`. -/
theorem demo_preserves_participant_and_experiment_core_witness :
    exSessionFinal.part = exSession.part ∧
    exSessionFinal.exp.id = exSession.exp.id ∧
    exSessionFinal.exp.instructions = exSession.exp.instructions ∧
    exSessionFinal.exp.random = exSession.exp.random ∧
    exSessionFinal.exp.blocks =
      exSession.exp.blocks.map
        (fun b => { b with state := block.State.Relax }) :=
  demo_preserves_participant_and_experiment_core exSession exSessionFinal rfl

/-- Claim C7 (evidence of the code bug): `Block::run` never reads the
`random` flag — the observation sequence is identical whatever the flag's
value, the trials are always presented in their stored order, and no
seed exists anywhere in the engine. -/
theorem randomize_flag_ignored (b : Block) (r : Bool) :
    (({ b with random := r } : Block).run).map Prod.snd =
      (b.run).map Prod.snd := by
  obtain ⟨i, ts, rnd, p, rx, st⟩ := b
  cases p <;> simp only [block.Block.run, block.Block.runRest] <;>
    cases hrt : block.runTrials ts <;> simp only [hrt] <;>
    cases rx <;> simp

/-- Claim C8 counterexample: a `demo` run over a well-formed session
assigns the state sequence `Init, Welcome, Goodbye`; the `Consent` and
`Demographics` states (and `Blocks`) are skipped, contradicting the claim
that no listed state is skipped. -/
theorem demo_skips_consent_and_demographics :
    (demoT exSession).1 =
      [session.State.Init, session.State.Welcome, session.State.Goodbye] ∧
    session.State.Consent ∉ (demoT exSession).1 ∧
    session.State.Demographics ∉ (demoT exSession).1 := by
  refine ⟨rfl, ?_, ?_⟩ <;> decide

/-- Claim C8 as amended: a completed `demo` run drives the session state
linearly and one-directionally from `Init` to `Welcome` (running every
block of the experiment) and then to `Goodbye`; the `Consent`,
`Demographics` and `Blocks` states are skipped. -/
theorem demo_state_trace (s s' : Session)
    (h0 : s.state = session.State.Init) (h : demo s = some s') :
    (demoT s).1 =
      [session.State.Init, session.State.Welcome, session.State.Goodbye] ∧
    List.Pairwise (fun a b => sessionStateIdx a < sessionStateIdx b)
      (demoT s).1 ∧
    s'.state = session.State.Goodbye := by
  obtain ⟨htrace, blocks', hrb, hs'⟩ := demoT_some s s' h
  subst hs'
  rw [h0] at htrace
  exact ⟨htrace, by rw [htrace]; decide, rfl⟩

/-- Claim C8 witness: the amended claim instantiated at `exSession`. -/
theorem demo_state_trace_witness :
    (demoT exSession).1 =
      [session.State.Init, session.State.Welcome, session.State.Goodbye] ∧
    List.Pairwise (fun a b => sessionStateIdx a < sessionStateIdx b)
      (demoT exSession).1 ∧
    exSessionFinal.state = session.State.Goodbye :=
  demo_state_trace exSession exSessionFinal rfl rfl

/-- Claim C9: whenever `Block::run` returns, the block's stored trials
are exactly the pre-run ones (trials are run on clones, never written
back), and the only field of the block that changed is its own `state`,
now `Relax`. -/
theorem block_run_preserves_trials (b b' : Block)
    (out : List trial.Observation) (h : b.run = some (b', out)) :
    b'.trials = b.trials ∧
    b' = { b with state := block.State.Relax } := by
  obtain ⟨-, h2⟩ := block_run_some b b' out h
  exact ⟨by rw [h2], h2⟩

/-- Claim C9 witness: the one-trial block `exBlock` (whose trials start
in `Init`) keeps its trials unchanged across `Block::run`. -/
theorem block_run_preserves_trials_witness :
    exBlockFinal.trials = exBlock.trials ∧
    exBlockFinal = { exBlock with state := block.State.Relax } :=
  block_run_preserves_trials exBlock exBlockFinal [exObs] rfl

/-- Claim C10 counterexample: a trial whose prelude is `Prime` is run and
produces no Observation (`Trial::run` hits `todo!()`), contradicting the
claim that every trial that is run produces an Observation — though the
abort is an unimplemented-stub panic, not an asset failure. -/
theorem prime_trial_yields_no_observation :
    primeTrial.run = none ∧
    primeTrial.stimulus.load = primeTrial.stimulus :=
  ⟨rfl, rfl⟩

/-- Claim C10 as amended: `Stimulus::load` always succeeds and returns
the stimulus unchanged, so no trial ever aborts with an
`AssetUnavailable` condition and the Observation sequence never has an
asset-failure gap; every trial whose prelude is not `Prime` produces an
Observation (a `Prime` trial aborts on the unimplemented stub, not on
asset load). -/
theorem load_total_and_nonprime_run_total (s : trial.Stimulus) (t : Trial)
    (hp : ∀ d st, t.prelude ≠ trial.Prelude.Prime d st) :
    s.load = s ∧ (t.run).isSome = true := by
  refine ⟨rfl, ?_⟩
  obtain ⟨p, stim, adv, st⟩ := t
  cases p with
  | Prime d s2 => exact absurd rfl (hp d s2)
  | Now => rfl
  | Blank d => rfl
  | Fix d => rfl

/-- Claim C10 witness: the amended claim instantiated at a blank stimulus
and the default trial. -/
theorem load_total_and_nonprime_run_total_witness :
    (trial.Stimulus.Blank 500).load = trial.Stimulus.Blank 500 ∧
    (Trial.default.run).isSome = true :=
  load_total_and_nonprime_run_total (trial.Stimulus.Blank 500) Trial.default
    (by intro d st h; simp [trial.Trial.default] at h)

end Yex
